import Mathlib

/-!
Verification of the CoderDojo Eventbrite reporting application.

The development shallowly embeds the Python sources:
- `src/services/events.py` (data-transformation service),
- `src/api/request_eventbrite.py` (REST client),
- `src/api/request_scrapping_eventbrite.py` (browser-automation client),
- the reactive controllers `src/app.py` and `src/eventbrite_app.py`.

Raw platform payloads are JSON-like values (`JVal`); a pandas missing value
(`pd.NA` / `NaN`) is represented by `Option.none` at every place where the
Python code can produce one.  Python code that can raise is embedded as a
function into `Except String`, the error string naming the exception the
source would raise.
-/

namespace CoderDojo

/-- A JSON-like value, as delivered by the Eventbrite API and consumed by the
transformation service.  Objects are association lists (Python dicts with
unique keys); `jlookup` uses first-match semantics. -/
inductive JVal where
  | str : String → JVal
  | num : Int → JVal
  | bool : Bool → JVal
  | null : JVal
  | obj : List (String × JVal) → JVal
  | arr : List JVal → JVal

/-- Python `d[k]` / `k in d` support: first binding of `k` in the
association list, `none` when the key is absent. -/
def jlookup (o : List (String × JVal)) (k : String) : Option JVal :=
  match o with
  | [] => none
  | (k2, v) :: rest => if k2 = k then some v else jlookup rest k

/-! ## src/services/events.py -/

/-- The guarded nested lookup pattern of `extract_event_informations`
(e.g. src/services/events.py lines 80-86): when the outer key is absent the
field is `pd.NA`; when present, `.keys()` is called on the inner value —
an `AttributeError` for a non-object — and the inner key is read when
present, `pd.NA` otherwise. -/
def nested_field (event : List (String × JVal)) (outer inner : String) :
    Except String (Option JVal) :=
  match jlookup event outer with
  | none => .ok none
  | some (JVal.obj o) => .ok (jlookup o inner)
  | some _ => .error "AttributeError: value has no keys method"

/-- `extract_event_informations` (src/services/events.py lines 27-131).
Reads each field of a raw event defensively and returns the flat record
built at lines 118-130, as an ordered association list from column name to
cell value (`none` = `pd.NA`).  The nested lookups (`name`, `description`,
`start`, `end`) are the only failure mode. -/
def extract_event_informations (event : List (String × JVal)) :
    Except String (List (String × Option JVal)) :=
  match nested_field event "name" "text" with
  | .error e => .error e
  | .ok name =>
  match nested_field event "description" "text" with
  | .error e => .error e
  | .ok description =>
  match nested_field event "start" "local" with
  | .error e => .error e
  | .ok start_date =>
  match nested_field event "end" "local" with
  | .error e => .error e
  | .ok end_date =>
  let url := jlookup event "url"
  let created_date := jlookup event "created"
  let changed_date := jlookup event "changed"
  let published_date := jlookup event "published"
  let capacity := jlookup event "capacity"
  let status := jlookup event "status"
  let id_event := jlookup event "id"
  .ok [("Name", name),
       ("Event ID", id_event),
       ("Description", description),
       ("Url", url),
       ("Creation Date", created_date),
       ("Modification Date", changed_date),
       ("Publication Date", published_date),
       ("Start Date", start_date),
       ("End Date", end_date),
       ("Capacity", capacity),
       ("Event Status", status)]

/-- Field access in an extracted record: `some` when the column name is
present (its cell may still be the missing value `none`). -/
def record_field (r : List (String × Option JVal)) (k : String) : Option (Option JVal) :=
  match r with
  | [] => none
  | (k2, v) :: rest => if k2 = k then some v else record_field rest k

/-- The six standardized custom-answer attributes
(src/services/events.py lines 179-186), all initialized to `pd.NA`. -/
structure AnswerRecord where
  birthDate : Option JVal
  age : Option JVal
  postalCode : Option JVal
  phoneNumber : Option JVal
  firstNameTutor : Option JVal
  lastNameTutor : Option JVal

/-- The all-missing `AnswerRecord` (lines 179-186). -/
def initAnswerRecord : AnswerRecord := ⟨none, none, none, none, none, none⟩

/-- `mapping_questions_answers` (src/services/events.py lines 188-232):
the static question-text to attribute lookup, exact and case-sensitive. -/
def mapping_questions_answers (q : String) : Option String :=
  if q = "Code postal" then some "Postal Code"
  else if q = "Postcode" then some "Postal Code"
  else if q = "Code postal/Postcode/Postal Code" then some "Postal Code"
  else if q = "geboortedatum (dag-maand-jaar)" then some "Birth Date"
  else if q = "Geboortedatum" then some "Birth Date"
  else if q = "Geboortejaar" then some "Birth Date"
  else if q = "Âge" then some "Age"
  else if q = "Age" then some "Age"
  else if q = "Leeftijd" then some "Age"
  else if q = "Age/Leeftijd" then some "Age"
  else if q = "Leeftijd/Age" then some "Age"
  else if q = "Leeftijd deelnemer" then some "Age"
  else if q = "Voornaam, geslacht en leeftijd van iedereen die je inschrijft" then some "Age"
  else if q = "(GSM) in geval van een noodgeval" then some "Phone Number"
  else if q = "Coordonnées (en cas d'urgence uniquement)/Contact informatie (in geval van nood)/Contact information (in case of an emergency)" then some "Phone Number"
  else if q = "Coordonnées (en cas d'urgence uniquement)" then some "Phone Number"
  else if q = "Contact informatie (in geval van nood)" then some "Phone Number"
  else if q = "Voogd: GSM nummer" then some "Phone Number"
  else if q = "Op welk telefoonnummer kunnen wij u bereiken tijdens de dojo?" then some "Phone Number"
  else if q = "Prénom (parent/tuteur)" then some "First Name Parent/Guardian"
  else if q = "Voornaam (ouder/voogd)" then some "First Name Parent/Guardian"
  else if q = "Voornaam (Ouder / Voogd)" then some "First Name Parent/Guardian"
  else if q = "Voornaam en Achternaam(ouder/voogd)/Prénom et  Nom de famille(parent/tuteur)/First name and Last name(parent/guardian)" then some "First Name Parent/Guardian"
  else if q = "Prénom (parent/tuteur·rice)" then some "First Name Parent/Guardian"
  else if q = "Voornaam (ouder/voogd)/Prénom (parent/tuteur)/First name (parent/guardian)" then some "First Name Parent/Guardian"
  else if q = "Prénom (parent/tuteur)/Voornaam (ouder/voogd)/First name (parent/guardian)" then some "First Name Parent/Guardian"
  else if q = "Nom de famille (parent/tuteur·rice)" then some "Last Name Parent/Guardian"
  else if q = "Naam en voornaam (ouder/voogd)" then some "Last Name Parent/Guardian"
  else if q = "Nom de famille (parent/tuteur)/Achternaam (ouder/voogd)/Surname (parent/guardian)" then some "Last Name Parent/Guardian"
  else if q = "Achternaam (ouder/voogd)" then some "Last Name Parent/Guardian"
  else if q = "Achternaam (ouder / voogd)" then some "Last Name Parent/Guardian"
  else if q = "Achternaam (Ouder / Voogd)" then some "Last Name Parent/Guardian"
  else if q = "Achternaam (ouder/voogd)/Nom de famille (parent/tuteur)/Surname (parent/guardian)" then some "Last Name Parent/Guardian"
  else if q = "Naam van ouder/voogd" then some "Last Name Parent/Guardian"
  else if q = "Nom de famille (parent/tuteur)" then some "Last Name Parent/Guardian"
  else if q = "Naam ouder" then some "Last Name Parent/Guardian"
  else if q = "Voogd: Voornaam en familienaam" then some "Last Name Parent/Guardian"
  else if q = "Naam ouder:" then some "Last Name Parent/Guardian"
  else none

/-- `dict_infos_attendee[attribute] = answer` (line 237), dispatching on the
attribute name produced by the mapping table. -/
def setAnswerAttribute (r : AnswerRecord) (attr : String) (ans : Option JVal) : AnswerRecord :=
  if attr = "Birth Date" then { r with birthDate := ans }
  else if attr = "Age" then { r with age := ans }
  else if attr = "Postal Code" then { r with postalCode := ans }
  else if attr = "Phone Number" then { r with phoneNumber := ans }
  else if attr = "First Name Parent/Guardian" then { r with firstNameTutor := ans }
  else if attr = "Last Name Parent/Guardian" then { r with lastNameTutor := ans }
  else r

/-- Column set of `pd.DataFrame(list_of_dicts)`: the union of the keys of
the row dictionaries (order of first appearance). -/
def dfColumns (rows : List (List (String × JVal))) : List String :=
  rows.foldl (fun acc r =>
    acc ++ ((r.map Prod.fst).filter (fun k => ¬ (k ∈ acc)))) []

/-- `extract_attendee_questions_answers` (src/services/events.py
lines 134-244).  Builds the DataFrame of question/answer rows; when both a
`question` and an `answer` column exist, applies the mapping row by row
(`match_question_answer`, lines 234-237): an unmatched or missing question
text leaves the record unchanged, a matched one overwrites the attribute
with the answer cell of that row (which is `NaN`, i.e. `none`, when the row
has no `answer` key).  Last write wins. -/
def extract_attendee_questions_answers (rows : List (List (String × JVal))) :
    AnswerRecord :=
  let cols := dfColumns rows
  if ("question" ∈ cols) ∧ ("answer" ∈ cols) then
    rows.foldl (fun acc row =>
      match jlookup row "question" with
      | some (JVal.str q) =>
        match mapping_questions_answers q with
        | some attr => setAnswerAttribute acc attr (jlookup row "answer")
        | none => acc
      | _ => acc) initAnswerRecord
  else initAnswerRecord

/-- One row of the attendee table built by `extract_attendee_informations`
(src/services/events.py lines 307-327: the 19 columns). -/
structure AttendeeRow where
  eventId : Option JVal
  orderId : Option JVal
  orderDate : Option JVal
  ticketType : Option JVal
  quantity : Option JVal
  attendeeStatus : Option JVal
  lastName : Option JVal
  firstName : Option JVal
  gender : Option JVal
  age : Option JVal
  birthDate : Option JVal
  email : Option JVal
  address : Option JVal
  city : Option JVal
  postalCode : Option JVal
  country : Option JVal
  lastNameTutor : Option JVal
  firstNameTutor : Option JVal
  phoneNumber : Option JVal

/-- Interprets the elements of an `answers` array as row dictionaries for
`pd.DataFrame`; a non-dict element is treated as a malformed payload. -/
def toRowObjs : List JVal → Option (List (List (String × JVal)))
  | [] => some []
  | JVal.obj o :: rest => (toRowObjs rest).map (fun l => o :: l)
  | _ => none

/-- The custom-answers step of `extract_attendee_informations`
(src/services/events.py lines 345-355): `answers` defaults to `[]`; the
exact empty list short-circuits to the all-missing record, otherwise the
list is handed to `extract_attendee_questions_answers`.  A non-list
`answers` value is modelled as a malformed payload. -/
def attendeeAnswers (a : List (String × JVal)) : Except String AnswerRecord :=
  match (jlookup a "answers").getD (JVal.arr []) with
  | JVal.arr [] => .ok initAnswerRecord
  | JVal.arr elems =>
    match toRowObjs elems with
    | some rows => .ok (extract_attendee_questions_answers rows)
    | none => .error "malformed answers entry"
  | _ => .error "malformed answers value"

/-- The body of the `for dict_infos_attendee in list_dict_infos_attendees`
loop of `extract_attendee_informations` (src/services/events.py
lines 330-389) for a single raw attendee record.

The address resolution (lines 357-367) is embedded faithfully:
`addresses = profile.get("addresses", pd.NA)`, then `if addresses == {}`.
When `addresses` is `pd.NA` the comparison evaluates to `False`
(`NAType.__eq__` returns `NotImplemented` for a dict operand and the
fallback is an identity comparison), so the `else` branch runs
`addresses.get("home", {})`, which raises `AttributeError` because
`NAType` has no `get` method; a non-dict `addresses` value likewise fails
the comparison and raises `AttributeError` at the same `.get`. -/
def extractAttendeeRow (v : JVal) : Except String AttendeeRow :=
  match v with
  | JVal.obj a =>
    let event_id := jlookup a "event_id"
    let order_id := jlookup a "order_id"
    let order_date := jlookup a "changed"
    let ticket_type := jlookup a "ticket_class_name"
    let quantity := jlookup a "quantity"
    let status := jlookup a "status"
    match (jlookup a "profile").getD (JVal.obj []) with
    | JVal.obj p =>
      let last_name := jlookup p "last_name"
      let first_name := jlookup p "first_name"
      let gender := jlookup p "gender"
      let email := jlookup p "email"
      match attendeeAnswers a with
      | .error e => .error e
      | .ok ans =>
      match jlookup p "addresses" with
      | none => .error "AttributeError: NAType object has no attribute get"
      | some (JVal.obj []) =>
        .ok { eventId := event_id, orderId := order_id, orderDate := order_date,
              ticketType := ticket_type, quantity := quantity, attendeeStatus := status,
              lastName := last_name, firstName := first_name, gender := gender,
              age := ans.age, birthDate := ans.birthDate, email := email,
              address := none, city := none, postalCode := ans.postalCode,
              country := none, lastNameTutor := ans.lastNameTutor,
              firstNameTutor := ans.firstNameTutor, phoneNumber := ans.phoneNumber }
      | some (JVal.obj addrs) =>
        match (jlookup addrs "home").getD (JVal.obj []) with
        | JVal.obj home =>
          let city := jlookup home "city"
          let postal_code := match ans.postalCode with
            | none => jlookup home "postal_code"
            | some pc => some pc
          let address := jlookup home "address_1"
          let country := jlookup home "country"
          .ok { eventId := event_id, orderId := order_id, orderDate := order_date,
                ticketType := ticket_type, quantity := quantity, attendeeStatus := status,
                lastName := last_name, firstName := first_name, gender := gender,
                age := ans.age, birthDate := ans.birthDate, email := email,
                address := address, city := city, postalCode := postal_code,
                country := country, lastNameTutor := ans.lastNameTutor,
                firstNameTutor := ans.firstNameTutor, phoneNumber := ans.phoneNumber }
        | _ => .error "AttributeError: home value has no get method"
      | some _ => .error "AttributeError: addresses value has no get method"
    | _ => .error "AttributeError: profile value has no get method"
  | _ => .error "AttributeError: attendee record is not a mapping"

/-- Result of `extract_attendee_informations`: the Python function returns
the plain empty list `[]` for empty input (line 304-305) and a
`pd.DataFrame` otherwise — two different runtime types, kept apart here. -/
inductive AttendeesResult where
  | sentinel
  | table (rows : List AttendeeRow)

/-- The record loop of `extract_attendee_informations`
(src/services/events.py lines 330-389): each raw record contributes one
row, in input order; the first raised exception propagates. -/
def extractAttendeeRows : List JVal → Except String (List AttendeeRow)
  | [] => .ok []
  | v :: rest =>
    match extractAttendeeRow v with
    | .error e => .error e
    | .ok r =>
      match extractAttendeeRows rest with
      | .error e => .error e
      | .ok rs => .ok (r :: rs)

/-- `extract_attendee_informations` (src/services/events.py lines 247-391). -/
def extract_attendee_informations (l : List JVal) : Except String AttendeesResult :=
  match l with
  | [] => .ok AttendeesResult.sentinel
  | _ :: _ =>
    match extractAttendeeRows l with
    | .error e => .error e
    | .ok rows => .ok (AttendeesResult.table rows)

/-! ## Controller pipeline steps shared by src/app.py and src/eventbrite_app.py -/

/-- Column access on `pd.DataFrame(list_of_records)`: the column exists when
some record carries the key (records missing it contribute `NaN`), and a
lookup of an absent column raises `KeyError`.  Models
`df_event_infos["Venue ID"]` (src/eventbrite_app.py line 159) and similar
accesses. -/
def dataframe_column (rows : List (List (String × Option JVal))) (col : String) :
    Except String (List (Option JVal)) :=
  if rows.any (fun r => (record_field r col).isSome) then
    .ok (rows.map (fun r => (record_field r col).getD none))
  else .error ("KeyError: " ++ col)

/-- The event-info table of the validate-events pipeline:
`[extract_event_informations(event) for event in selected_events]` followed
by `pd.DataFrame(...)` (src/app.py lines 146-147, src/eventbrite_app.py
lines 155-156). -/
def event_info_rows (events : List (List (String × JVal))) :
    Except String (List (List (String × Option JVal))) :=
  events.mapM extract_event_informations

/-- The venue lookup input of the extended application: reading the
`Venue ID` column of the event-info table
(`df_event_infos["Venue ID"]`, src/eventbrite_app.py line 159). -/
def extended_app_venue_ids (events : List (List (String × JVal))) :
    Except String (List (Option JVal)) := do
  let rows ← event_info_rows events
  dataframe_column rows "Venue ID"

/-- The sentinel filter of the validate-events pipeline
(src/app.py line 162, src/eventbrite_app.py line 190):
`[item for item in results if not isinstance(item, list)]` keeps the
DataFrames and drops the `[]` sentinels. -/
def discard_sentinel_results (l : List AttendeesResult) : List (List AttendeeRow) :=
  l.filterMap (fun r =>
    match r with
    | AttendeesResult.sentinel => none
    | AttendeesResult.table rows => some rows)

/-- The vertical concatenation of the remaining per-event attendee tables
(src/app.py line 163, src/eventbrite_app.py line 191); `pd.concat` on an
empty list of objects raises `ValueError`. -/
def concat_attendee_tables (l : List AttendeesResult) :
    Except String (List AttendeeRow) :=
  match discard_sentinel_results l with
  | [] => .error "ValueError: No objects to concatenate"
  | tables => .ok tables.flatten

/-- `select_all_events` (src/app.py lines 120-128 and, identically,
src/eventbrite_app.py lines 131-138).  `options` is the value list of the
checklist options; `all_values` is every concrete option (everything but
the synthetic `All`). -/
def select_all_events (selected_values : List String) (options : List String) :
    List String :=
  let all_values := options.filter (fun v => v ≠ "All")
  if "All" ∈ selected_values then
    if all_values.all (fun v => decide (v ∈ selected_values)) then []
    else all_values
  else selected_values

/-! ## Age bucketing of the extended application (src/eventbrite_app.py) -/

/-- `pd.cut(xs, bins=bins, labels=names, right=False)` for one value: the
bins are left-closed right-open; the final edge of the source list is
`np.inf`, so the last label covers `[lastEdge, +inf)`.  A value below the
first edge falls outside every bin (`NaN`). -/
def cut_right_false : List Int → List String → Int → Option String
  | b1 :: b2 :: bs, l :: ls, x =>
    if b1 ≤ x ∧ x < b2 then some l else cut_right_false (b2 :: bs) ls x
  | [b1], [l], x => if b1 ≤ x then some l else none
  | _, _, _ => none

/-- The participant bins of src/eventbrite_app.py line 243
(`bins = [-1, 3, 6, 9, 12, 15, 18, np.inf]`, final `np.inf` edge implied
by the bucketing function). -/
def participant_age_bins : List Int := [-1, 3, 6, 9, 12, 15, 18]

/-- The participant labels of src/eventbrite_app.py line 244. -/
def participant_age_labels : List String :=
  ["Missing", "3-5", "6-8", "9-11", "12-14", "15-17", "17>"]

/-- Participant age bucketing (src/eventbrite_app.py lines 243-251):
`fillna(-1)` coerces a missing age to `-1`, then `pd.cut` with
`right=False` assigns the bucket label. -/
def bucket_participant_age (age : Option Int) : Option String :=
  cut_right_false participant_age_bins participant_age_labels (age.getD (-1))

/-! ## Regional aggregation of the extended application (src/eventbrite_app.py) -/

/-- The distinct values of a list in order of first appearance. -/
def distinct_firsts (xs : List String) : List String :=
  xs.foldl (fun acc v => if v ∈ acc then acc else acc ++ [v]) []

/-- `series.value_counts()` on a region column: missing entries are
dropped, each remaining distinct value is paired with its number of
occurrences.  (pandas additionally orders rows by descending count; row
order is irrelevant to the join below and is not modelled.) -/
def value_counts (xs : List (Option String)) : List (String × Nat) :=
  let vals := xs.filterMap id
  (distinct_firsts vals).map (fun v => (v, vals.count v))

/-- Key lookup in a single-key count table. -/
def lookup_region (t : List (String × Nat)) (r : String) : Option Nat :=
  (t.find? (fun p => p.1 = r)).map Prod.snd

/-- `left.merge(right, on="Region")` with pandas default `how="inner"`
(src/eventbrite_app.py line 335), for tables whose `Region` keys are
unique (they are `value_counts` outputs): keeps the left rows whose key
also appears on the right. -/
def inner_merge_counts (t1 : List (String × Nat)) (t2 : List (String × Nat)) :
    List (String × Nat × Nat) :=
  t1.filterMap (fun p => (lookup_region t2 p.1).map (fun c => (p.1, p.2, c)))

/-- Second inner merge, attaching the volunteer counts to the two-count
table (src/eventbrite_app.py line 335). -/
def inner_merge_counts3 (t : List (String × Nat × Nat)) (t3 : List (String × Nat)) :
    List (String × Nat × Nat × Nat) :=
  t.filterMap (fun p => (lookup_region t3 p.1).map (fun c => (p.1, p.2.1, p.2.2, c)))

/-- `df_freq_by_region` (src/eventbrite_app.py lines 321-335): the per-region
dojo, checked-in-participant and checked-in-volunteer counts, inner-joined
on the region name.  Arguments are the `Dojo Region` columns of the event
table, the participant subset and the volunteer subset. -/
def df_freq_by_region (dojoRegions participantRegions volunteerRegions : List (Option String)) :
    List (String × Nat × Nat × Nat) :=
  inner_merge_counts3
    (inner_merge_counts (value_counts dojoRegions) (value_counts participantRegions))
    (value_counts volunteerRegions)

/-! ## Date validation shared by both API clients -/

/-- A calendar date, the result of `datetime.strptime(s, "%Y-%m-%d").date()`. -/
structure PyDate where
  year : Nat
  month : Nat
  day : Nat

/-- Number of days in a month of a given year (Gregorian), as enforced by
`datetime.strptime`. -/
def days_in_month (y m : Nat) : Nat :=
  if m = 2 then
    if y % 4 = 0 ∧ (y % 100 ≠ 0 ∨ y % 400 = 0) then 29 else 28
  else if m = 4 ∨ m = 6 ∨ m = 9 ∨ m = 11 then 30
  else 31

/-- `datetime.strptime(s, "%Y-%m-%d")` on a zero-padded date string:
`some` date on success, `none` when the source would raise `ValueError`. -/
def parse_date (s : String) : Option PyDate :=
  match s.toList with
  | [y1, y2, y3, y4, c1, m1, m2, c2, d1, d2] =>
    if y1.isDigit ∧ y2.isDigit ∧ y3.isDigit ∧ y4.isDigit ∧ c1 = Char.ofNat 45 ∧
       m1.isDigit ∧ m2.isDigit ∧ c2 = Char.ofNat 45 ∧ d1.isDigit ∧ d2.isDigit then
      let y := 1000 * (y1.toNat - 48) + 100 * (y2.toNat - 48) + 10 * (y3.toNat - 48) + (y4.toNat - 48)
      let m := 10 * (m1.toNat - 48) + (m2.toNat - 48)
      let d := 10 * (d1.toNat - 48) + (d2.toNat - 48)
      if 1 ≤ m ∧ m ≤ 12 ∧ 1 ≤ d ∧ d ≤ days_in_month y m then
        some ⟨y, m, d⟩
      else none
    else none
  | _ => none

/-- `validate_date_format` (src/api/request_eventbrite.py lines 22-27,
src/api/request_scrapping_eventbrite.py lines 36-41): an empty string is
skipped (`if date_str:` is falsy), anything else must parse. -/
def valid_date_format (s : String) : Bool :=
  s = "" ∨ (parse_date s).isSome

/-- Lexicographic order on dates, matching `date` comparison in Python. -/
def date_lt (a b : PyDate) : Bool :=
  a.year < b.year ∨ (a.year = b.year ∧
    (a.month < b.month ∨ (a.month = b.month ∧ a.day < b.day)))

/-! ## src/api/request_eventbrite.py (REST client) -/

namespace RequestEventbrite

/-- Behaviour of the events endpoint for one page request: an HTTP response
with a status and an `events`/`attendees` payload, or a network failure
(`requests.exceptions.RequestException`). -/
inductive HttpOutcome where
  | resp (status : Nat) (payload : List JVal)
  | netFail (msg : String)

/-- The exact message of `RateLimitException`
(src/api/request_eventbrite.py lines 51 and 108). -/
def rate_limit_message : String :=
  "Hourly rate limit has been reached for this token. Default rate limits are 2,000 calls per hour."

/-- Outcome of a REST-client call. -/
inductive RestOutcome where
  | invalidInput (msg : String)
  | rateLimited (msg : String)
  | requestFailed (msg : String)
  | ok (payload : List JVal)
  | diverged

/-- The `while True` pagination loop shared by both REST operations
(src/api/request_eventbrite.py lines 45-59 and 102-116), with explicit
fuel because the source loop has no bound.  Returns the outcome together
with the list of page numbers actually requested, in request order:
429 raises `RateLimitException` at once, any other non-200 status breaks
and returns the accumulated payload, a 200 page is accumulated and the
next page is requested, and a network failure is re-raised as a generic
request failure. -/
def pagination_loop (pages : Nat → HttpOutcome) :
    Nat → Nat → List JVal → RestOutcome × List Nat
  | 0, _, _ => (RestOutcome.diverged, [])
  | fuel + 1, page, acc =>
    match pages page with
    | HttpOutcome.netFail msg =>
      (RestOutcome.requestFailed ("API request failed: " ++ msg), [page])
    | HttpOutcome.resp status payload =>
      if status = 429 then (RestOutcome.rateLimited rate_limit_message, [page])
      else if status ≠ 200 then (RestOutcome.ok acc, [page])
      else
        let next := pagination_loop pages fuel (page + 1) (acc ++ payload)
        (next.1, page :: next.2)

/-- `get_filter_events_organization` (src/api/request_eventbrite.py
lines 8-61): validates the two date parameters (start first), then runs the
pagination loop from page 1.  The network is abstracted as the `pages`
oracle giving the endpoint behaviour for each requested page number. -/
def get_filter_events_organization (pages : Nat → HttpOutcome)
    (start_date end_date : String) (fuel : Nat) : RestOutcome × List Nat :=
  if ¬ valid_date_format start_date then
    (RestOutcome.invalidInput "The parameter start_date must be in YYYY-MM-DD format.", [])
  else if ¬ valid_date_format end_date then
    (RestOutcome.invalidInput "The parameter end_date must be in YYYY-MM-DD format.", [])
  else pagination_loop pages fuel 1 []

/-- `get_event_attendees` (src/api/request_eventbrite.py lines 64-118):
no validation, same pagination loop from page 1. -/
def get_event_attendees (pages : Nat → HttpOutcome) (fuel : Nat) :
    RestOutcome × List Nat :=
  pagination_loop pages fuel 1 []

end RequestEventbrite

/-! ## src/api/request_scrapping_eventbrite.py (browser-automation client) -/

namespace RequestScrappingEventbrite

/-- State of the rendered page at each step of the scraping loop:
`firstJson` is the parsed text of the first `language-json` element
(`none` when `find_elements` returns no element; a rendered block is
assumed to be valid JSON, a malformed one would raise `JSONDecodeError`
outside the caught exception classes).  `pag` describes the pagination
control search. -/
inductive PaginationState where
  | nextOk
  | nextMissing
  | absent

/-- One browser interaction: either the driver raises
`TimeoutException`/`WebDriverException`, or it renders a page. -/
inductive BrowserStep where
  | fail (msg : String)
  | page (firstJson : Option JVal) (pag : PaginationState)

/-- Result of the scraping loop body (the `while True` of lines 82-111 and
161-184): a normal return value, a browser failure escaping to the outer
handler, or fuel exhaustion (the source loop has no bound). -/
inductive LoopOut where
  | done (pagesAcc : List JVal)
  | browserFail (msg : String)
  | outOfFuel

/-- The scraping loop shared by both operations
(src/api/request_scrapping_eventbrite.py lines 80-112 and 159-185).
`steps i` is the page state after `i` clicks on the next control.
No `language-json` element: `return []`.  Otherwise the parsed block is
appended; a pagination block with a `CONTINUATED RESPONSE` heading and a
working next control continues, one whose next control is missing raises
`NoSuchElementException` which is caught and yields `return []`, and no
matching pagination block breaks the loop and returns the accumulated
pages. -/
def scrape_loop (steps : Nat → BrowserStep) : Nat → Nat → List JVal → LoopOut
  | 0, _, _ => LoopOut.outOfFuel
  | fuel + 1, i, acc =>
    match steps i with
    | BrowserStep.fail msg => LoopOut.browserFail msg
    | BrowserStep.page none _ => LoopOut.done []
    | BrowserStep.page (some j) pag =>
      match pag with
      | PaginationState.nextOk => scrape_loop steps fuel (i + 1) (acc ++ [j])
      | PaginationState.nextMissing => LoopOut.done []
      | PaginationState.absent => LoopOut.done (acc ++ [j])

/-- Result of a scraping-client call: a raised exception (`ValueError` from
validation), a returned Python value — `some` list or the bare `None` —
or divergence of the unbounded loop. -/
inductive ScrapeResult where
  | raised (msg : String)
  | value (v : Option (List JVal))
  | diverged

/-- `get_filter_events_organization`
(src/api/request_scrapping_eventbrite.py lines 8-117): validates the four
date parameters, enforces the `time_filter` temporal constraints against
`today`, then scrapes.  A browser/timeout failure during scraping is
caught (lines 114-117): the driver is released and the empty list is
returned. -/
def get_filter_events_organization (steps : Nat → BrowserStep) (today : PyDate)
    (time_filter : String)
    (start_date end_date created_start_date created_end_date : String)
    (fuel : Nat) : ScrapeResult :=
  if ¬ valid_date_format start_date then
    ScrapeResult.raised "The parameter start_date must be in YYYY-MM-DD format."
  else if ¬ valid_date_format end_date then
    ScrapeResult.raised "The parameter end_date must be in YYYY-MM-DD format."
  else if ¬ valid_date_format created_start_date then
    ScrapeResult.raised "The parameter created_start_date must be in YYYY-MM-DD format."
  else if ¬ valid_date_format created_end_date then
    ScrapeResult.raised "The parameter created_end_date must be in YYYY-MM-DD format."
  else if time_filter = "past" ∧
      [start_date, end_date, created_start_date, created_end_date].any
        (fun s =>
          match parse_date s with
          | some d => ¬ date_lt d today
          | none => false) then
    ScrapeResult.raised "With time_filter=past, dates cannot be today or in the future."
  else if time_filter = "current_future" ∧
      (parse_date end_date).any (fun d => date_lt d today) then
    ScrapeResult.raised "With time_filter=current_future, end_date cannot be strictly in the past."
  else
    match scrape_loop steps fuel 0 [] with
    | LoopOut.done l => ScrapeResult.value (some l)
    | LoopOut.browserFail _ => ScrapeResult.value (some [])
    | LoopOut.outOfFuel => ScrapeResult.diverged

/-- `get_event_attendees` (src/api/request_scrapping_eventbrite.py
lines 120-190): no validation; the `except (TimeoutException,
WebDriverException)` handler at lines 187-190 quits the driver and prints
but contains no `return` statement, so on a browser/timeout failure the
function returns the bare `None`. -/
def get_event_attendees (steps : Nat → BrowserStep) (fuel : Nat) : ScrapeResult :=
  match scrape_loop steps fuel 0 [] with
  | LoopOut.done l => ScrapeResult.value (some l)
  | LoopOut.browserFail _ => ScrapeResult.value none
  | LoopOut.outOfFuel => ScrapeResult.diverged

end RequestScrappingEventbrite

/-! ## Claim theorems -/

/-- Claim C1: the claim states that both scraping-client operations catch
every browser/timeout failure, release the browser and return an empty
list, never returning anything other than a list.  The event-listing
operation does behave that way, but `get_event_attendees` violates the
claim: its exception handler (src/api/request_scrapping_eventbrite.py
lines 187-190) has no `return` statement, so a browser/timeout failure
makes it return `None` rather than a list.  This theorem evaluates both
operations on a browser that fails immediately. -/
theorem claim_C1_scraping_failure_contract :
    RequestScrappingEventbrite.get_filter_events_organization
        (fun _ => RequestScrappingEventbrite.BrowserStep.fail "timeout")
        ⟨2026, 10, 12⟩ "all" "" "" "" "" 5 =
      RequestScrappingEventbrite.ScrapeResult.value (some [])
  ∧ RequestScrappingEventbrite.get_event_attendees
        (fun _ => RequestScrappingEventbrite.BrowserStep.fail "timeout") 5 =
      RequestScrappingEventbrite.ScrapeResult.value none :=
  ⟨rfl, rfl⟩

/-- Concrete raw event used for claim C2: it carries a `venue_id` field,
which `extract_event_informations` never reads. -/
def c2_event : List (String × JVal) :=
  [("name", JVal.obj [("text", JVal.str "Dojo A")]),
   ("id", JVal.str "1"),
   ("url", JVal.str "https://www.eventbrite.com/e/dojo-a"),
   ("status", JVal.str "live"),
   ("capacity", JVal.num 20),
   ("venue_id", JVal.str "987")]

/-- Claim C2: the claim states that `extract_event_informations` returns a
record whose fields are exactly the Event-entity fields of the spec,
including the optional venue ID that the extended application reads.  The
code returns exactly eleven fields and no `Venue ID` field at all
(src/services/events.py lines 118-130), so the extended application,
which reads the `Venue ID` column of the event-info table
(src/eventbrite_app.py line 159), raises `KeyError`. -/
theorem claim_C2_no_venue_id_field :
    (extract_event_informations c2_event).map (fun r => r.map Prod.fst) =
      Except.ok ["Name", "Event ID", "Description", "Url", "Creation Date",
        "Modification Date", "Publication Date", "Start Date", "End Date",
        "Capacity", "Event Status"]
  ∧ "Venue ID" ∉ ["Name", "Event ID", "Description", "Url", "Creation Date",
        "Modification Date", "Publication Date", "Start Date", "End Date",
        "Capacity", "Event Status"]
  ∧ extended_app_venue_ids [c2_event] = Except.error "KeyError: Venue ID" :=
  ⟨rfl, by decide, rfl⟩

/-- Claim C5: `extract_attendee_informations` on the empty list returns the
plain empty-list sentinel, not a table; and the concatenation step of the
validate-events pipeline drops every sentinel from the fetched per-event
results before concatenating, so inserting a sentinel anywhere among the
results leaves the concatenation unchanged (in particular it does not
raise). -/
theorem claim_C5_empty_sentinel_discarded :
    extract_attendee_informations [] = Except.ok AttendeesResult.sentinel
  ∧ ∀ pre post : List AttendeesResult,
      concat_attendee_tables (pre ++ AttendeesResult.sentinel :: post) =
        concat_attendee_tables (pre ++ post) := by
  refine ⟨rfl, ?_⟩
  intro pre post
  unfold concat_attendee_tables discard_sentinel_results
  rw [List.filterMap_append, List.filterMap_append, List.filterMap_cons]

/-- Claim C6: the `All` checklist toggle.  If `All` is among the selected
values and every concrete option is already selected, the selection is
cleared; if `All` is selected and some concrete option is not, the result
is exactly the list of every concrete option; if `All` is not selected,
the selection passes through unchanged. -/
theorem claim_C6_select_all_toggle (sel opts : List String) :
    ("All" ∈ sel → (∀ v ∈ opts.filter (fun v => v ≠ "All"), v ∈ sel) →
        select_all_events sel opts = [])
  ∧ ("All" ∈ sel → (∃ v ∈ opts.filter (fun v => v ≠ "All"), v ∉ sel) →
        select_all_events sel opts = opts.filter (fun v => v ≠ "All"))
  ∧ ("All" ∉ sel → select_all_events sel opts = sel) := by
  unfold select_all_events
  refine ⟨?_, ?_, ?_⟩
  · intro hAll hsub
    rw [if_pos hAll, if_pos]
    rw [List.all_eq_true]
    intro v hv
    exact decide_eq_true (hsub v hv)
  · rintro hAll ⟨v, hv, hnot⟩
    rw [if_pos hAll, if_neg]
    intro hall
    rw [List.all_eq_true] at hall
    exact hnot (of_decide_eq_true (hall v hv))
  · intro hnot
    rw [if_neg hnot]

/-- Witness for claim C6: the two scenarios of the spec plus the pass-through
case, on options `[All, A, B]`. -/
theorem claim_C6_select_all_toggle_witness :
    select_all_events ["All", "A", "B"] ["All", "A", "B"] = []
  ∧ select_all_events ["A", "All"] ["All", "A", "B"] = ["A", "B"]
  ∧ select_all_events ["A"] ["All", "A", "B"] = ["A"] :=
  ⟨(claim_C6_select_all_toggle ["All", "A", "B"] ["All", "A", "B"]).1 (by decide)
      (by decide),
   (claim_C6_select_all_toggle ["A", "All"] ["All", "A", "B"]).2.1 (by decide)
      ⟨"B", by decide, by decide⟩,
   (claim_C6_select_all_toggle ["A"] ["All", "A", "B"]).2.2 (by decide)⟩

set_option maxHeartbeats 1000000 in
/-- Claim C8: participant age bucketing uses the edges
`(-1, 3, 6, 9, 12, 15, 18, +inf)`, each bucket inclusive on its lower bound
and exclusive on its upper bound, with a missing age coerced to `-1`;
consequently age 5 lands in `3-5`, a missing age in `Missing`, and age 20
in `17>`. -/
theorem claim_C8_participant_age_buckets :
    (∀ a : Int, bucket_participant_age (some a) =
      if a < -1 then none
      else if a < 3 then some "Missing"
      else if a < 6 then some "3-5"
      else if a < 9 then some "6-8"
      else if a < 12 then some "9-11"
      else if a < 15 then some "12-14"
      else if a < 18 then some "15-17"
      else some "17>")
  ∧ bucket_participant_age none = some "Missing"
  ∧ bucket_participant_age (some 5) = some "3-5"
  ∧ bucket_participant_age (some 20) = some "17>" := by
  refine ⟨?_, rfl, rfl, rfl⟩
  intro a
  simp only [bucket_participant_age, participant_age_bins, participant_age_labels,
    cut_right_false, Option.getD]
  split_ifs <;> first | rfl | omega

/-- Helper for claim C3: when every page before `k` answers 200 and page
`k` answers 429, the pagination loop started at page `p ≤ k` with enough
fuel raises the rate-limit error and requests exactly the pages
`p, p+1, ..., k`. -/
theorem pagination_loop_first_429 (pages : Nat → RequestEventbrite.HttpOutcome)
    (k : Nat) :
    ∀ fuel p acc, p ≤ k → k < p + fuel →
      (∀ j, p ≤ j → j < k →
        ∃ evs, pages j = RequestEventbrite.HttpOutcome.resp 200 evs) →
      (∃ evs, pages k = RequestEventbrite.HttpOutcome.resp 429 evs) →
      RequestEventbrite.pagination_loop pages fuel p acc =
        (RequestEventbrite.RestOutcome.rateLimited RequestEventbrite.rate_limit_message,
         List.range' p (k + 1 - p)) := by
  intro fuel
  induction fuel with
  | zero =>
    intro p acc h1 h2 _ _
    omega
  | succ n ih =>
    intro p acc hpk hfuel hbefore h429
    by_cases hpk2 : p = k
    · subst hpk2
      obtain ⟨evs, hev⟩ := h429
      have hk1 : p + 1 - p = 1 := by omega
      rw [hk1]
      simp [RequestEventbrite.pagination_loop, hev, List.range']
    · have hlt : p < k := lt_of_le_of_ne hpk hpk2
      obtain ⟨evs, hev⟩ := hbefore p le_rfl hlt
      have hrec := ih (p + 1) (acc ++ evs) (by omega) (by omega)
        (fun j hj1 hj2 => hbefore j (by omega) hj2) h429
      have harith : k + 1 - p = (k + 1 - (p + 1)) + 1 := by omega
      rw [harith, List.range'_succ]
      simp [RequestEventbrite.pagination_loop, hev, hrec]

/-- Claim C3: if the events-listing endpoint answers 429 at the first page
`k` it is asked for (all earlier pages answering 200), the REST client
raises `RateLimitException` with the exact documented quota message, and
the pages requested are exactly `1, ..., k` — no later page is ever
requested. -/
theorem claim_C3_rate_limit_stops_pagination
    (pages : Nat → RequestEventbrite.HttpOutcome) (sd ed : String) (k fuel : Nat)
    (hsd : valid_date_format sd = true) (hed : valid_date_format ed = true)
    (hk : 1 ≤ k) (hfuel : k < 1 + fuel)
    (hbefore : ∀ j, 1 ≤ j → j < k →
      ∃ evs, pages j = RequestEventbrite.HttpOutcome.resp 200 evs)
    (h429 : ∃ evs, pages k = RequestEventbrite.HttpOutcome.resp 429 evs) :
    RequestEventbrite.get_filter_events_organization pages sd ed fuel =
      (RequestEventbrite.RestOutcome.rateLimited RequestEventbrite.rate_limit_message,
       List.range' 1 k)
  ∧ ∀ j ∈ (RequestEventbrite.get_filter_events_organization pages sd ed fuel).2,
      j ≤ k := by
  have hmain : RequestEventbrite.get_filter_events_organization pages sd ed fuel =
      (RequestEventbrite.RestOutcome.rateLimited RequestEventbrite.rate_limit_message,
       List.range' 1 k) := by
    unfold RequestEventbrite.get_filter_events_organization
    rw [if_neg (by simp [hsd]), if_neg (by simp [hed])]
    have hloop := pagination_loop_first_429 pages k fuel 1 [] hk hfuel hbefore h429
    have harith : k + 1 - 1 = k := by omega
    rw [harith] at hloop
    exact hloop
  refine ⟨hmain, ?_⟩
  rw [hmain]
  intro j hj
  have := List.mem_range'_1.mp hj
  omega

/-- Witness for claim C3: a 429 on page 2 after a 200 on page 1. -/
theorem claim_C3_rate_limit_stops_pagination_witness :
    RequestEventbrite.get_filter_events_organization
        (fun j => if j = 2 then RequestEventbrite.HttpOutcome.resp 429 []
                  else RequestEventbrite.HttpOutcome.resp 200 [JVal.str "e"])
        "2024-01-01" "2024-02-01" 5 =
      (RequestEventbrite.RestOutcome.rateLimited RequestEventbrite.rate_limit_message,
       List.range' 1 2)
  ∧ ∀ j ∈ (RequestEventbrite.get_filter_events_organization
        (fun j => if j = 2 then RequestEventbrite.HttpOutcome.resp 429 []
                  else RequestEventbrite.HttpOutcome.resp 200 [JVal.str "e"])
        "2024-01-01" "2024-02-01" 5).2, j ≤ 2 :=
  claim_C3_rate_limit_stops_pagination
    (fun j => if j = 2 then RequestEventbrite.HttpOutcome.resp 429 []
              else RequestEventbrite.HttpOutcome.resp 200 [JVal.str "e"])
    "2024-01-01" "2024-02-01" 2 5 (by decide) (by decide) (by omega) (by omega)
    (by
      intro j h1 h2
      have hj : j = 1 := by omega
      subst hj
      exact ⟨[JVal.str "e"], rfl⟩)
    ⟨[], rfl⟩

/-- Claim C4: for a well-formed raw event with no `name` key, or with a
`name` object lacking a `text` sub-key, `extract_event_informations`
returns a record whose Name field is the missing value rather than
raising.  Well-formedness of the other nested fields (`description`,
`start`, `end`: absent, or present as objects) rules out the
`AttributeError` they would otherwise raise. -/
theorem claim_C4_missing_name_is_na (ev : List (String × JVal))
    (hname : jlookup ev "name" = none ∨
      ∃ o, jlookup ev "name" = some (JVal.obj o) ∧ jlookup o "text" = none)
    (hdesc : jlookup ev "description" = none ∨
      ∃ o, jlookup ev "description" = some (JVal.obj o))
    (hstart : jlookup ev "start" = none ∨
      ∃ o, jlookup ev "start" = some (JVal.obj o))
    (hend : jlookup ev "end" = none ∨
      ∃ o, jlookup ev "end" = some (JVal.obj o)) :
    (extract_event_informations ev).map (fun r => record_field r "Name") =
      Except.ok (some none) := by
  have hnm : nested_field ev "name" "text" = Except.ok none := by
    unfold nested_field
    rcases hname with h | ⟨o, h, ht⟩
    · rw [h]
    · rw [h]
      exact congrArg Except.ok ht
  have hds : ∃ d, nested_field ev "description" "text" = Except.ok d := by
    unfold nested_field
    rcases hdesc with h | ⟨o, h⟩
    · rw [h]; exact ⟨none, rfl⟩
    · rw [h]; exact ⟨_, rfl⟩
  have hst : ∃ d, nested_field ev "start" "local" = Except.ok d := by
    unfold nested_field
    rcases hstart with h | ⟨o, h⟩
    · rw [h]; exact ⟨none, rfl⟩
    · rw [h]; exact ⟨_, rfl⟩
  have hen : ∃ d, nested_field ev "end" "local" = Except.ok d := by
    unfold nested_field
    rcases hend with h | ⟨o, h⟩
    · rw [h]; exact ⟨none, rfl⟩
    · rw [h]; exact ⟨_, rfl⟩
  obtain ⟨d1, hds⟩ := hds
  obtain ⟨d2, hst⟩ := hst
  obtain ⟨d3, hen⟩ := hen
  unfold extract_event_informations
  rw [hnm, hds, hst, hen]
  rfl

/-- Witness for claim C4: an event record carrying only an `id`. -/
theorem claim_C4_missing_name_is_na_witness :
    (extract_event_informations [("id", JVal.str "1")]).map
      (fun r => record_field r "Name") = Except.ok (some none) :=
  claim_C4_missing_name_is_na [("id", JVal.str "1")]
    (Or.inl rfl) (Or.inl rfl) (Or.inl rfl) (Or.inl rfl)

/-- The attendee row produced in the claim C7 scenarios: direct fields from
the record `a`, profile fields from `p`, custom answers from `ans`, address
fields from the `home` object, and the stated postal code. -/
def c7_expected_row (a p home : List (String × JVal)) (ans : AnswerRecord)
    (pc : Option JVal) : AttendeeRow :=
  { eventId := jlookup a "event_id", orderId := jlookup a "order_id",
    orderDate := jlookup a "changed", ticketType := jlookup a "ticket_class_name",
    quantity := jlookup a "quantity", attendeeStatus := jlookup a "status",
    lastName := jlookup p "last_name", firstName := jlookup p "first_name",
    gender := jlookup p "gender", age := ans.age, birthDate := ans.birthDate,
    email := jlookup p "email", address := jlookup home "address_1",
    city := jlookup home "city", postalCode := pc,
    country := jlookup home "country", lastNameTutor := ans.lastNameTutor,
    firstNameTutor := ans.firstNameTutor, phoneNumber := ans.phoneNumber }

/-- Claim C7: for an attendee whose profile carries a non-empty `addresses`
object with a `home` sub-object, the resulting Postal Code comes from
`home.postal_code` when the custom-answers step produced none, and from
the custom answer (the home value unused) when it did. -/
theorem claim_C7_postal_code_priority (a p addrs home : List (String × JVal))
    (ans : AnswerRecord)
    (hp : (jlookup a "profile").getD (JVal.obj []) = JVal.obj p)
    (hans : attendeeAnswers a = Except.ok ans)
    (haddr : jlookup p "addresses" = some (JVal.obj addrs))
    (hne : addrs ≠ [])
    (hhome : jlookup addrs "home" = some (JVal.obj home)) :
    (ans.postalCode = none →
      extract_attendee_informations [JVal.obj a] =
        Except.ok (AttendeesResult.table
          [c7_expected_row a p home ans (jlookup home "postal_code")]))
  ∧ ∀ v, ans.postalCode = some v →
      extract_attendee_informations [JVal.obj a] =
        Except.ok (AttendeesResult.table [c7_expected_row a p home ans (some v)]) := by
  cases addrs with
  | nil => exact absurd rfl hne
  | cons hd tl =>
    constructor
    · intro hpc
      simp [extract_attendee_informations, extractAttendeeRows, extractAttendeeRow,
        hp, hans, haddr, hhome, hpc, c7_expected_row, Option.getD_some]
    · intro v hpc
      simp [extract_attendee_informations, extractAttendeeRows, extractAttendeeRow,
        hp, hans, haddr, hhome, hpc, c7_expected_row, Option.getD_some]

/-- Home address object shared by the claim C7 witness records. -/
def c7_home : List (String × JVal) := [("postal_code", JVal.str "1000")]

/-- Addresses object shared by the claim C7 witness records. -/
def c7_addrs : List (String × JVal) := [("home", JVal.obj c7_home)]

/-- Profile object shared by the claim C7 witness records. -/
def c7_profile : List (String × JVal) := [("addresses", JVal.obj c7_addrs)]

/-- Claim C7 witness record without a custom postal-code answer. -/
def c7_record_no_answer : List (String × JVal) :=
  [("profile", JVal.obj c7_profile)]

/-- Claim C7 witness record with a `Postcode` custom answer. -/
def c7_record_with_answer : List (String × JVal) :=
  [("answers", JVal.arr [JVal.obj
      [("question", JVal.str "Postcode"), ("answer", JVal.str "9000")]]),
   ("profile", JVal.obj c7_profile)]

/-- Witness for claim C7: one attendee without a postal-code answer (the
home postal code is used) and one with a `Postcode` custom answer (the
custom answer wins over the home value). -/
theorem claim_C7_postal_code_priority_witness :
    extract_attendee_informations [JVal.obj c7_record_no_answer] =
      Except.ok (AttendeesResult.table
        [c7_expected_row c7_record_no_answer c7_profile c7_home initAnswerRecord
          (some (JVal.str "1000"))])
  ∧ extract_attendee_informations [JVal.obj c7_record_with_answer] =
      Except.ok (AttendeesResult.table
        [c7_expected_row c7_record_with_answer c7_profile c7_home
          { initAnswerRecord with postalCode := some (JVal.str "9000") }
          (some (JVal.str "9000"))]) := by
  constructor
  · have h := (claim_C7_postal_code_priority c7_record_no_answer c7_profile
      c7_addrs c7_home initAnswerRecord rfl rfl rfl (by simp [c7_addrs]) rfl).1 rfl
    exact h.trans (by rfl)
  · have h := (claim_C7_postal_code_priority c7_record_with_answer c7_profile
      c7_addrs c7_home { initAnswerRecord with postalCode := some (JVal.str "9000") }
      rfl rfl rfl (by simp [c7_addrs]) rfl).2 (JVal.str "9000") rfl
    exact h.trans (by rfl)

/-- Helper for claim C9: membership in `distinct_firsts` is membership in
the input list. -/
theorem mem_distinct_firsts (xs : List String) (r : String) :
    r ∈ distinct_firsts xs ↔ r ∈ xs := by
  have h : ∀ acc : List String,
      r ∈ xs.foldl (fun acc v => if v ∈ acc then acc else acc ++ [v]) acc ↔
        r ∈ acc ∨ r ∈ xs := by
    induction xs with
    | nil => intro acc; simp
    | cons x xs ih =>
      intro acc
      rw [List.foldl_cons, ih]
      by_cases hx : x ∈ acc
      · rw [if_pos hx]
        constructor
        · rintro (h | h)
          · exact Or.inl h
          · exact Or.inr (List.mem_cons_of_mem _ h)
        · rintro (h | h)
          · exact Or.inl h
          · rcases List.mem_cons.mp h with rfl | h2
            · exact Or.inl hx
            · exact Or.inr h2
      · rw [if_neg hx]
        simp only [List.mem_append, List.mem_singleton, List.mem_cons]
        tauto
  have h2 := h []
  simpa [distinct_firsts] using h2

/-- Helper for claim C9: a region that never occurs in the column is absent
from its `value_counts` table. -/
theorem lookup_region_value_counts_none (xs : List (Option String)) (r : String)
    (h : some r ∉ xs) : lookup_region (value_counts xs) r = none := by
  unfold lookup_region value_counts
  rw [Option.map_eq_none', List.find?_eq_none]
  intro p hp
  obtain ⟨v, hv, rfl⟩ := List.mem_map.mp hp
  simp only [decide_eq_true_eq]
  intro hvr
  subst hvr
  have hmem : v ∈ xs.filterMap id := (mem_distinct_firsts _ _).mp hv
  obtain ⟨a, ha, hav⟩ := List.mem_filterMap.mp hmem
  exact h (by rwa [show a = some v from hav] at ha)

/-- Helper for claim C9: every key of the three-way merge result has an
entry in the third count table. -/
theorem keys_inner_merge_counts3 (t : List (String × Nat × Nat))
    (t3 : List (String × Nat)) (r : String)
    (hmem : r ∈ (inner_merge_counts3 t t3).map (fun q => q.1)) :
    ∃ c, lookup_region t3 r = some c := by
  obtain ⟨q, hq, rfl⟩ := List.mem_map.mp hmem
  obtain ⟨p, hp, heq⟩ := List.mem_filterMap.mp hq
  cases hc : lookup_region t3 p.1 with
  | none =>
    rw [hc] at heq
    exact Option.noConfusion heq
  | some c =>
    rw [hc] at heq
    simp only [Option.map_some', Option.some.injEq] at heq
    rw [← heq]
    exact ⟨c, hc⟩

/-- Helper for claim C9: every key of the three-way merge result is a key
of the two-way merge it extends. -/
theorem keys_inner_merge_counts3_left (t : List (String × Nat × Nat))
    (t3 : List (String × Nat)) (r : String)
    (hmem : r ∈ (inner_merge_counts3 t t3).map (fun q => q.1)) :
    r ∈ t.map (fun q => q.1) := by
  obtain ⟨q, hq, rfl⟩ := List.mem_map.mp hmem
  obtain ⟨p, hp, heq⟩ := List.mem_filterMap.mp hq
  cases hc : lookup_region t3 p.1 with
  | none =>
    rw [hc] at heq
    exact Option.noConfusion heq
  | some c =>
    rw [hc] at heq
    simp only [Option.map_some', Option.some.injEq] at heq
    rw [← heq]
    exact List.mem_map.mpr ⟨p, hp, rfl⟩

/-- Helper for claim C9: every key of a two-way merge result has an entry
in the right count table. -/
theorem keys_inner_merge_counts_right (t1 t2 : List (String × Nat)) (r : String)
    (hmem : r ∈ (inner_merge_counts t1 t2).map (fun q => q.1)) :
    ∃ c, lookup_region t2 r = some c := by
  obtain ⟨q, hq, rfl⟩ := List.mem_map.mp hmem
  obtain ⟨p, hp, heq⟩ := List.mem_filterMap.mp hq
  cases hc : lookup_region t2 p.1 with
  | none =>
    rw [hc] at heq
    exact Option.noConfusion heq
  | some c =>
    rw [hc] at heq
    simp only [Option.map_some', Option.some.injEq] at heq
    rw [← heq]
    exact ⟨c, hc⟩

/-- Helper for claim C9: every key of a two-way merge result is a key of
the left count table. -/
theorem keys_inner_merge_counts_left (t1 t2 : List (String × Nat)) (r : String)
    (hmem : r ∈ (inner_merge_counts t1 t2).map (fun q => q.1)) :
    r ∈ t1.map (fun q => q.1) := by
  obtain ⟨q, hq, rfl⟩ := List.mem_map.mp hmem
  obtain ⟨p, hp, heq⟩ := List.mem_filterMap.mp hq
  cases hc : lookup_region t2 p.1 with
  | none =>
    rw [hc] at heq
    exact Option.noConfusion heq
  | some c =>
    rw [hc] at heq
    simp only [Option.map_some', Option.some.injEq] at heq
    rw [← heq]
    exact List.mem_map.mpr ⟨p, hp, rfl⟩

/-- Helper for claim C9: every key of a `value_counts` table occurs in the
input column. -/
theorem mem_value_counts_keys (xs : List (Option String)) (r : String)
    (hmem : r ∈ (value_counts xs).map (fun q => q.1)) : some r ∈ xs := by
  simp only [value_counts] at hmem
  obtain ⟨q, hq, rfl⟩ := List.mem_map.mp hmem
  obtain ⟨v, hv, rfl⟩ := List.mem_map.mp hq
  have hvals : v ∈ xs.filterMap id := (mem_distinct_firsts _ _).mp hv
  obtain ⟨a, ha, hav⟩ := List.mem_filterMap.mp hvals
  rwa [show a = some v from hav] at ha

/-- Claim C9: the regional aggregation joins the dojo, participant and
volunteer counts by inner join on the region name, so a region missing
from at least one of the three count tables (for instance a region with
dojos and participants but zero volunteers, or one with zero
participants) is absent from the final three-way aggregate. -/
theorem claim_C9_inner_join_drops_region (dojo part vol : List (Option String))
    (r : String)
    (habsent : some r ∉ dojo ∨ some r ∉ part ∨ some r ∉ vol) :
    r ∉ (df_freq_by_region dojo part vol).map (fun q => q.1) := by
  intro hmem
  unfold df_freq_by_region at hmem
  rcases habsent with h | h | h
  · have h1 := keys_inner_merge_counts3_left _ _ _ hmem
    have h2 := keys_inner_merge_counts_left _ _ _ h1
    exact h (mem_value_counts_keys _ _ h2)
  · have h1 := keys_inner_merge_counts3_left _ _ _ hmem
    obtain ⟨c, hc⟩ := keys_inner_merge_counts_right _ _ _ h1
    rw [lookup_region_value_counts_none part r h] at hc
    exact Option.noConfusion hc
  · obtain ⟨c, hc⟩ := keys_inner_merge_counts3 _ _ _ hmem
    rw [lookup_region_value_counts_none vol r h] at hc
    exact Option.noConfusion hc

/-- Witness for claim C9: Brussels has a dojo and a participant but no
volunteer, and Wallonia a dojo and a volunteer but no participant; both
disappear from the aggregate. -/
theorem claim_C9_inner_join_drops_region_witness :
    (some "Brussels" ∉ [some "Flanders"]
      ∧ "Brussels" ∉ (df_freq_by_region
          [some "Flanders", some "Brussels", some "Wallonia"]
          [some "Brussels", some "Flanders"] [some "Flanders"]).map (fun q => q.1))
  ∧ (some "Wallonia" ∉ [some "Brussels", some "Flanders"]
      ∧ "Wallonia" ∉ (df_freq_by_region
          [some "Flanders", some "Brussels", some "Wallonia"]
          [some "Brussels", some "Flanders"]
          [some "Flanders", some "Wallonia"]).map (fun q => q.1)) :=
  ⟨⟨by decide,
    claim_C9_inner_join_drops_region
      [some "Flanders", some "Brussels", some "Wallonia"]
      [some "Brussels", some "Flanders"] [some "Flanders"] "Brussels"
      (Or.inr (Or.inr (by decide)))⟩,
   ⟨by decide,
    claim_C9_inner_join_drops_region
      [some "Flanders", some "Brussels", some "Wallonia"]
      [some "Brussels", some "Flanders"] [some "Flanders", some "Wallonia"]
      "Wallonia" (Or.inr (Or.inl (by decide)))⟩⟩

/-- The attendee row produced when the profile addresses object is exactly
the empty object (src/services/events.py lines 358-359): Address, City and
Country are missing and the postal code is whatever the custom-answers step
produced. -/
def c10_empty_addresses_row (a p : List (String × JVal)) (ans : AnswerRecord) :
    AttendeeRow :=
  { eventId := jlookup a "event_id", orderId := jlookup a "order_id",
    orderDate := jlookup a "changed", ticketType := jlookup a "ticket_class_name",
    quantity := jlookup a "quantity", attendeeStatus := jlookup a "status",
    lastName := jlookup p "last_name", firstName := jlookup p "first_name",
    gender := jlookup p "gender", age := ans.age, birthDate := ans.birthDate,
    email := jlookup p "email", address := none, city := none,
    postalCode := ans.postalCode, country := none,
    lastNameTutor := ans.lastNameTutor, firstNameTutor := ans.firstNameTutor,
    phoneNumber := ans.phoneNumber }

/-- Claim C10 (amended): a profile with no `addresses` key makes
`extract_attendee_informations` raise an error rather than produce a row:
the `pd.NA` placeholder substituted for the absent addresses fails the
`addresses == {}` test (the comparison is `False`) and the subsequent
`addresses.get("home", {})` lookup raises `AttributeError`; a profile
whose addresses value is the explicitly empty object yields the row with
missing Address/City/Country.  (The original claim further said that the
empty object is the only source of the missing-address outcome; the
counterexample refutes that part, and only that part is amended away.) -/
theorem claim_C10_missing_addresses_raises (a p : List (String × JVal))
    (ans : AnswerRecord)
    (hp : (jlookup a "profile").getD (JVal.obj []) = JVal.obj p)
    (hans : attendeeAnswers a = Except.ok ans) :
    (jlookup p "addresses" = none →
      extract_attendee_informations [JVal.obj a] =
        Except.error "AttributeError: NAType object has no attribute get")
  ∧ (jlookup p "addresses" = some (JVal.obj []) →
      extract_attendee_informations [JVal.obj a] =
        Except.ok (AttendeesResult.table [c10_empty_addresses_row a p ans])) := by
  constructor
  · intro haddr
    simp [extract_attendee_informations, extractAttendeeRows, extractAttendeeRow,
      hp, hans, haddr]
  · intro haddr
    simp [extract_attendee_informations, extractAttendeeRows, extractAttendeeRow,
      hp, hans, haddr, c10_empty_addresses_row]

/-- Witness for claim C10: a profile without `addresses` raises, a profile
with an empty `addresses` object yields the missing-address row. -/
theorem claim_C10_missing_addresses_raises_witness :
    extract_attendee_informations [JVal.obj [("profile", JVal.obj [])]] =
      Except.error "AttributeError: NAType object has no attribute get"
  ∧ extract_attendee_informations
      [JVal.obj [("profile", JVal.obj [("addresses", JVal.obj [])])]] =
    Except.ok (AttendeesResult.table
      [c10_empty_addresses_row [("profile", JVal.obj [("addresses", JVal.obj [])])]
        [("addresses", JVal.obj [])] initAnswerRecord]) :=
  ⟨(claim_C10_missing_addresses_raises [("profile", JVal.obj [])] []
      initAnswerRecord rfl rfl).1 rfl,
   (claim_C10_missing_addresses_raises
      [("profile", JVal.obj [("addresses", JVal.obj [])])]
      [("addresses", JVal.obj [])] initAnswerRecord rfl rfl).2 rfl⟩

/-- Counterexample for claim C10 as stated: the claim says only a profile
whose `addresses` value is the explicitly empty object yields the
missing-address outcome; but a non-empty `addresses` object with no `home`
sub-object (here `addresses = {"work": {}}`) also produces a row whose
Address, City and Country are all missing. -/
theorem claim_C10_only_empty_object_counterexample :
    extract_attendee_informations
      [JVal.obj [("profile", JVal.obj
        [("addresses", JVal.obj [("work", JVal.obj [])])])]] =
    Except.ok (AttendeesResult.table
      [{ eventId := none, orderId := none, orderDate := none, ticketType := none,
         quantity := none, attendeeStatus := none, lastName := none,
         firstName := none, gender := none, age := none, birthDate := none,
         email := none, address := none, city := none, postalCode := none,
         country := none, lastNameTutor := none, firstNameTutor := none,
         phoneNumber := none }]) := rfl

end CoderDojo
